import Mathlib

/-!
# Shallow embedding of VoiceFlow Pro's error boundary and resource manager

This file embeds, in Lean, the parts of the repository relevant to the
circuit-breaker error boundary (`src-tauri/src/error_boundary.rs`) and the
resource manager (`src-tauri/src/memory.rs`), and proves theorems about them.

Modelling conventions:
* `Instant` timestamps are natural numbers of milliseconds on a monotone
  clock (seconds for the memory module, which only compares second-granular
  durations); `t.elapsed() > d` at time `now` becomes `now - t > d`.
* Rust `u64`/`usize` arithmetic is `Nat` with explicit wrapping (`% 2 ^ 64`,
  `% 2 ^ 32`) exactly where the Rust types truncate; `u64::saturating_pow`
  saturates at `2 ^ 64 - 1`.
* The async mutexes disappear: each method becomes a pure function from the
  guarded state (plus the current time) to the new state, faithful to the
  sequential order in which the Rust code takes the locks.
* The generic error type `E : From<AppError> + Display` of `execute` becomes
  a type parameter `ε` together with the two functions `fromApp : AppError → ε`
  and `display : ε → String`.
* `tokio::time::sleep` calls are recorded as a list of slept durations (ms),
  and calls to `ErrorReporter::report_error` as a list of reported errors.
-/

namespace VoiceFlow

/-- `CircuitBreakerState` from `error_boundary.rs`. -/
inductive CircuitBreakerState where
  | Closed   -- Normal operation
  | Open     -- Blocking requests
  | HalfOpen -- Testing if service recovered
deriving DecidableEq, Repr

/-- `RecoveryStrategy` from `error_boundary.rs`. -/
inductive RecoveryStrategy where
  | Retry (max_attempts : Nat) (delay_ms : Nat) (exponential_backoff : Bool)
  | Fallback (alt : String)
  | Skip
  | Restart
  | Custom (action : String)
deriving DecidableEq, Repr

/-- `ErrorBoundaryConfig` from `error_boundary.rs`; durations in milliseconds. -/
structure ErrorBoundaryConfig where
  max_recovery_attempts : Nat
  default_recovery_delay : Nat
  enable_automatic_recovery : Bool
  error_threshold : Nat
  circuit_breaker_timeout : Nat
deriving DecidableEq, Repr

/-- `impl Default for ErrorBoundaryConfig`. -/
def ErrorBoundaryConfig.default : ErrorBoundaryConfig :=
  { max_recovery_attempts := 3
    default_recovery_delay := 1000
    enable_automatic_recovery := true
    error_threshold := 10
    circuit_breaker_timeout := 60 * 1000 }

/-- The variant of `AppError` (`errors.rs`) constructed by the error boundary. -/
inductive AppError where
  | Internal (msg : String)
deriving DecidableEq, Repr

/-- `Display` for `AppError`: the `Internal` variant formats as
`"Internal error: {0}"` (`errors.rs`, line 34). -/
def AppError.display : AppError → String
  | .Internal msg => "Internal error: " ++ msg

/-- The mutable state of an `ErrorBoundary` (the contents of its four
mutexes): circuit state, the rolling error window (timestamps, oldest
first, as in the `VecDeque` pushed at the back and popped at the front),
the last error timestamp and the recovery-attempt counter. -/
structure BoundaryState where
  circuit_breaker_state : CircuitBreakerState
  error_count : List Nat
  last_error : Option Nat
  recovery_attempts : Nat
deriving DecidableEq, Repr

/-- `ErrorBoundary::new`: all-clear initial state. -/
def BoundaryState.init : BoundaryState :=
  { circuit_breaker_state := .Closed
    error_count := []
    last_error := none
    recovery_attempts := 0 }

/-- `ErrorBoundary::reset`: clears the window, the attempt counter and
the last-error timestamp, and closes the circuit. -/
def BoundaryState.reset (_st : BoundaryState) : BoundaryState :=
  { circuit_breaker_state := .Closed
    error_count := []
    last_error := none
    recovery_attempts := 0 }

/-- ASCII lowercasing of a character, mirroring what Rust's
`str::to_lowercase` does on the ASCII strings the classifier matches on. -/
def char_to_lower (c : Char) : Char :=
  if 65 ≤ c.toNat ∧ c.toNat ≤ 90 then Char.ofNat (c.toNat + 32) else c

/-- `String::to_lowercase`. -/
def str_to_lower (s : String) : String :=
  ⟨s.data.map char_to_lower⟩

/-- Does `pat` occur at the head of `hay`? (helper for substring search) -/
def list_starts_with : List Char → List Char → Bool
  | [], _ => true
  | _ :: _, [] => false
  | p :: ps, c :: cs => p = c && list_starts_with ps cs

/-- Does `needle` occur as a contiguous substring of `hay`?
(`str::contains` on the character sequence). -/
def list_contains_sub (needle : List Char) : List Char → Bool
  | [] => needle.isEmpty
  | c :: rest => list_starts_with needle (c :: rest) || list_contains_sub needle rest

/-- `str::contains` for string patterns. -/
def str_contains (s pat : String) : Bool :=
  list_contains_sub pat.data s.data

/-- `ErrorBoundary::determine_recovery_strategy` (`error_boundary.rs`,
lines 257–280): deterministic first-match keyword scan over the lowercased
error message. -/
def determine_recovery_strategy (error_msg : String) : Option RecoveryStrategy :=
  let error_lower := str_to_lower error_msg
  if str_contains error_lower "memory" || str_contains error_lower "allocation" then
    some .Restart
  else if str_contains error_lower "timeout" then
    some (.Retry 3 2000 true)
  else if str_contains error_lower "network" || str_contains error_lower "connection" then
    some (.Fallback "cache")
  else if str_contains error_lower "validation" then
    some .Skip
  else
    some (.Retry 1 1000 false)

/-- `ErrorBoundary::open_circuit_breaker`: sets the state to `Open` and the
last-error timestamp to `Instant::now()`. -/
def open_circuit_breaker (st : BoundaryState) (now : Nat) : BoundaryState :=
  { st with circuit_breaker_state := .Open, last_error := some now }

/-- `ErrorBoundary::force_restart`: clears the window, the attempt counter
and the last-error timestamp, then opens the circuit breaker. -/
def force_restart (st : BoundaryState) (now : Nat) : BoundaryState :=
  let st := { st with error_count := [] }
  let st := { st with recovery_attempts := 0 }
  let st := { st with last_error := none }
  open_circuit_breaker st now

/-- The pruning loop of `ErrorBoundary::record_error`: pop entries from the
front of the window while the front entry is older than 60 seconds, stopping
at the first recent one. -/
def prune_old_errors (now : Nat) : List Nat → List Nat
  | [] => []
  | t :: rest => if now - t > 60 * 1000 then prune_old_errors now rest else t :: rest

/-- `ErrorBoundary::record_error` (`error_boundary.rs`, lines 215–247):
push the current instant at the back of the window, prune entries older
than one minute from the front, set the last-error timestamp, and open the
circuit breaker if the window length reaches the error threshold. -/
def record_error (cfg : ErrorBoundaryConfig) (st : BoundaryState) (now : Nat) :
    BoundaryState :=
  let ec := prune_old_errors now (st.error_count ++ [now])
  let st := { st with error_count := ec }
  let st := { st with last_error := some now }
  if ec.length ≥ cfg.error_threshold then open_circuit_breaker st now else st

/-- Wrap a natural number to `u32` range (`as u32`). -/
def u32_wrap (n : Nat) : Nat := n % 2 ^ 32

/-- `2u64.saturating_pow e`: saturates at `u64::MAX`. -/
def u64_saturating_pow2 (e : Nat) : Nat := min (2 ^ e) (2 ^ 64 - 1)

/-- The exponential-backoff delay of `ErrorBoundary::attempt_recovery`
(`error_boundary.rs`, line 288):
`delay_ms * 2u64.saturating_pow(attempts as u32 - 1)` in `u64` arithmetic
(the `- 1` wraps in `u32`, the product wraps in `u64`). -/
def retry_backoff_delay (delay_ms attempts : Nat) : Nat :=
  (delay_ms * u64_saturating_pow2 (u32_wrap (u32_wrap attempts + 2 ^ 32 - 1))) % 2 ^ 64

/-- `ErrorBoundary::attempt_recovery` (`error_boundary.rs`, lines 283–314):
returns the new boundary state and the duration slept (ms). Only the
`Restart` strategy changes the state (via `force_restart`). -/
def attempt_recovery (st : BoundaryState) (now : Nat) :
    RecoveryStrategy → BoundaryState × Nat
  | .Retry _ delay_ms exponential_backoff =>
    let delay := if exponential_backoff then
        retry_backoff_delay delay_ms st.recovery_attempts
      else delay_ms
    (st, delay)
  | .Fallback _ => (st, 500)
  | .Skip => (st, 100)
  | .Restart => (force_restart st now, 2000)
  | .Custom _ => (st, 1000)

/-- `ErrorBoundary::on_success` (`error_boundary.rs`, lines 146–169):
clear the window, the attempt counter and the last-error timestamp, and
ensure the circuit breaker is closed. -/
def on_success (st : BoundaryState) : BoundaryState :=
  let st := { st with error_count := [] }
  let st := { st with recovery_attempts := 0 }
  let st := { st with last_error := none }
  if st.circuit_breaker_state ≠ .Closed then
    { st with circuit_breaker_state := .Closed }
  else st

/-- Result of `on_error` besides the returned error: new state, sleeps
performed during recovery, and errors passed to the reporter. -/
structure OnErrorOut where
  state : BoundaryState
  sleeps : List Nat
  reported : List AppError
deriving DecidableEq, Repr

/-- `ErrorBoundary::on_error` (`error_boundary.rs`, lines 172–212), minus
the final `Err(error)` which `execute` models: records and reports the
error, returns early when automatic recovery is disabled or the attempt
counter is exhausted (opening the breaker in the latter case), otherwise
increments the counter and runs the recovery strategy determined from the
error's display string. -/
def on_error (cfg : ErrorBoundaryConfig) (name : String) (st : BoundaryState)
    (now : Nat) (error_str : String) : OnErrorOut :=
  let error_app := AppError.Internal (name ++ ": " ++ error_str)
  let st := record_error cfg st now
  let reported := [error_app]
  if ¬ cfg.enable_automatic_recovery then
    { state := st, sleeps := [], reported := reported }
  else if st.recovery_attempts ≥ cfg.max_recovery_attempts then
    { state := open_circuit_breaker st now, sleeps := [], reported := reported }
  else
    let st := { st with recovery_attempts := st.recovery_attempts + 1 }
    match determine_recovery_strategy error_str with
    | some strategy =>
      let (st, slept) := attempt_recovery st now strategy
      { state := st, sleeps := [slept], reported := reported }
    | none => { state := st, sleeps := [], reported := reported }

/-- Decidable equality for `Except` outcomes, to evaluate concrete runs. -/
instance {ε α : Type} [DecidableEq ε] [DecidableEq α] :
    DecidableEq (Except ε α) := fun x y =>
  match x, y with
  | .ok a, .ok b =>
    if h : a = b then isTrue (by rw [h])
    else isFalse (fun hc => h (Except.ok.inj hc))
  | .error a, .error b =>
    if h : a = b then isTrue (by rw [h])
    else isFalse (fun hc => h (Except.error.inj hc))
  | .ok _, .error _ => isFalse (fun hc => Except.noConfusion hc)
  | .error _, .ok _ => isFalse (fun hc => Except.noConfusion hc)

/-- Result of one `ErrorBoundary::execute` call: the returned
`Result<T, E>`, the new boundary state, whether the wrapped operation was
invoked, the recovery sleeps performed and the errors reported. -/
structure ExecOut (ε α : Type) where
  result : Except ε α
  state : BoundaryState
  invoked : Bool
  sleeps : List Nat
  reported : List AppError

/-- The tail of `execute` after the circuit-breaker check: run the wrapped
operation and dispatch to `on_success` / `on_error`. -/
def execute_run (cfg : ErrorBoundaryConfig) (name : String) {ε α : Type}
    (display : ε → String) (st : BoundaryState) (now : Nat)
    (op : Except ε α) : ExecOut ε α :=
  match op with
  | .ok value =>
    { result := .ok value, state := on_success st, invoked := true
      sleeps := [], reported := [] }
  | .error e =>
    let o := on_error cfg name st now (display e)
    { result := .error e, state := o.state, invoked := true
      sleeps := o.sleeps, reported := o.reported }

/-- `ErrorBoundary::execute` (`error_boundary.rs`, lines 98–143).
`fromApp` and `display` embed the `E: From<AppError> + Display` bounds;
`op : Except ε α` is the (one-shot) wrapped operation's outcome. If the
snapshot state is `Open` with a last-error timestamp not yet past the
timeout, fail fast with a synthesized `AppError::Internal` and do not
invoke the operation; if `Open` past the timeout, move to `HalfOpen` and
run the operation; if `Open` with no timestamp, fall through and run the
operation; if `HalfOpen`, close the circuit and run; if `Closed`, run. -/
def execute (cfg : ErrorBoundaryConfig) (name : String) {ε α : Type}
    (fromApp : AppError → ε) (display : ε → String) (st : BoundaryState)
    (now : Nat) (op : Except ε α) : ExecOut ε α :=
  match st.circuit_breaker_state with
  | .Open =>
    match st.last_error with
    | some t =>
      if now - t > cfg.circuit_breaker_timeout then
        execute_run cfg name display
          { st with circuit_breaker_state := .HalfOpen } now op
      else
        { result := .error (fromApp (.Internal
            ("Circuit breaker is open for component: " ++ name)))
          state := st, invoked := false, sleeps := [], reported := [] }
    | none => execute_run cfg name display st now op
  | .HalfOpen =>
    execute_run cfg name display
      { st with circuit_breaker_state := .Closed } now op
  | .Closed => execute_run cfg name display st now op

/-! ## Memory module (`src-tauri/src/memory.rs`)

Timestamps here are seconds (the module only compares against
second-granular durations: 300 s staleness, 30 s cleanup interval). -/

/-- `VoiceEngineResource` from `memory.rs`: last-activity timestamp, audio
buffer size, pool of audio buffers (`Vec<Vec<f32>>`), initialized flag and
estimated memory usage. -/
structure VoiceEngineResource where
  id : String
  last_activity : Nat
  buffer_size : Nat
  audio_pool : List (List Float)
  initialized : Bool
  memory_usage : Nat

/-- `VoiceEngineResource::new`. -/
def VoiceEngineResource.new (id : String) (now : Nat) : VoiceEngineResource :=
  { id := id, last_activity := now, buffer_size := 0, audio_pool := []
    initialized := false, memory_usage := 0 }

/-- `VoiceEngineResource::is_stale`: inactive for strictly more than
300 seconds (5 minutes). -/
def VoiceEngineResource.is_stale (r : VoiceEngineResource) (now : Nat) : Bool :=
  now - r.last_activity > 300

/-- `VoiceEngineResource::cleanup`: clear the audio buffers, reset the
buffer size, memory usage and initialized flag. -/
def VoiceEngineResource.cleanup_resource (r : VoiceEngineResource) :
    VoiceEngineResource :=
  { r with audio_pool := [], buffer_size := 0, memory_usage := 0
           initialized := false }

/-- `VoiceEngineResource::clear_cache`. -/
def VoiceEngineResource.clear_cache (r : VoiceEngineResource) :
    VoiceEngineResource :=
  { r with audio_pool := [], buffer_size := 0, memory_usage := 0 }

/-- `TextProcessorResource` from `memory.rs`. -/
structure TextProcessorResource where
  id : String
  last_activity : Nat
  cache_size : Nat
  processing_queue : List String
  initialized : Bool
  memory_usage : Nat
deriving DecidableEq, Repr

/-- `TextProcessorResource::is_stale`. -/
def TextProcessorResource.is_stale (r : TextProcessorResource) (now : Nat) : Bool :=
  now - r.last_activity > 300

/-- `TextProcessorResource::cleanup`. -/
def TextProcessorResource.cleanup_resource (r : TextProcessorResource) :
    TextProcessorResource :=
  { r with processing_queue := [], cache_size := 0, memory_usage := 0
           initialized := false }

/-- `TextProcessorResource::clear_cache`. -/
def TextProcessorResource.clear_cache (r : TextProcessorResource) :
    TextProcessorResource :=
  { r with processing_queue := [], cache_size := 0, memory_usage := 0 }

/-- `ResourceManager` from `memory.rs`. The two `HashMap`s are modelled as
association lists with unique keys (lookup returns the first match). -/
structure ResourceManager where
  voice_engines : List (String × VoiceEngineResource)
  text_processors : List (String × TextProcessorResource)
  cleanup_interval : Nat
  last_cleanup : Nat
  total_memory : Nat
  cleanup_running : Bool

/-- `HashMap` lookup on the association-list model. -/
def alist_find {α : Type} (k : String) : List (String × α) → Option α
  | [] => none
  | (k', v) :: rest => if k' = k then some v else alist_find k rest

/-- `ResourceManager::new`. -/
def ResourceManager.new (now : Nat) : ResourceManager :=
  { voice_engines := [], text_processors := [], cleanup_interval := 30
    last_cleanup := now, total_memory := 0, cleanup_running := false }

/-- `ResourceManager::update_memory_estimate`: store the sum of the
resources' estimated memory usages. -/
def ResourceManager.update_memory_estimate (m : ResourceManager) :
    ResourceManager :=
  { m with total_memory :=
      (m.voice_engines.map (fun p => p.2.memory_usage)).sum +
      (m.text_processors.map (fun p => p.2.memory_usage)).sum }

/-- `ResourceManager::force_cleanup` (`memory.rs`, lines 121–140): run
`cleanup` on every registered resource, then `clear_all_caches`. -/
def ResourceManager.force_cleanup (m : ResourceManager) : ResourceManager :=
  let m := { m with
    voice_engines := m.voice_engines.map
      (fun p : String × VoiceEngineResource => (p.1, p.2.cleanup_resource))
    text_processors := m.text_processors.map
      (fun p : String × TextProcessorResource => (p.1, p.2.cleanup_resource)) }
  -- clear_all_caches
  { m with
    voice_engines := m.voice_engines.map
      (fun p : String × VoiceEngineResource => (p.1, p.2.clear_cache))
    text_processors := m.text_processors.map
      (fun p : String × TextProcessorResource => (p.1, p.2.clear_cache)) }

/-- `ResourceManager::cleanup` (`memory.rs`, lines 74–118). If the
`cleanup_running` flag is already set, return at once without touching
anything. Otherwise set the flag, remove every stale voice engine and text
processor (the source collects the stale ids and removes each; on an
association list with unique keys this is a filter), run `force_cleanup`,
record the cleanup time, clear the flag and refresh the memory estimate. -/
def ResourceManager.cleanup (m : ResourceManager) (now : Nat) : ResourceManager :=
  if m.cleanup_running then m
  else
    let m := { m with cleanup_running := true }
    let m := { m with voice_engines :=
      m.voice_engines.filter (fun p => ¬ p.2.is_stale now) }
    let m := { m with text_processors :=
      m.text_processors.filter (fun p => ¬ p.2.is_stale now) }
    let m := m.force_cleanup
    let m := { m with last_cleanup := now }
    let m := { m with cleanup_running := false }
    m.update_memory_estimate

/-- `ResourceManager::needs_cleanup`. -/
def ResourceManager.needs_cleanup (m : ResourceManager) (now : Nat) : Bool :=
  now - m.last_cleanup > m.cleanup_interval

/-! ## Helper lemmas -/

/-- `on_success` always produces the all-clear closed state. -/
theorem on_success_eq (st : BoundaryState) :
    on_success st = { circuit_breaker_state := .Closed, error_count := []
                      last_error := none, recovery_attempts := 0 } := by
  by_cases h : st.circuit_breaker_state = .Closed <;> simp [on_success, h]

/-- `record_error` leaves the recovery-attempt counter untouched. -/
theorem record_error_recovery_attempts (cfg : ErrorBoundaryConfig)
    (st : BoundaryState) (now : Nat) :
    (record_error cfg st now).recovery_attempts = st.recovery_attempts := by
  by_cases hge :
      (prune_old_errors now (st.error_count ++ [now])).length ≥ cfg.error_threshold <;>
    simp [record_error, open_circuit_breaker, hge]

/-- `record_error` stamps the last-error timestamp with the current instant. -/
theorem record_error_last_error (cfg : ErrorBoundaryConfig)
    (st : BoundaryState) (now : Nat) :
    (record_error cfg st now).last_error = some now := by
  by_cases hge :
      (prune_old_errors now (st.error_count ++ [now])).length ≥ cfg.error_threshold <;>
    simp [record_error, open_circuit_breaker, hge]

/-- If `record_error` leaves the breaker `Open`, either the pruned window
reached the threshold or the breaker was already `Open`. -/
theorem record_error_circuit_open (cfg : ErrorBoundaryConfig)
    (st : BoundaryState) (now : Nat)
    (h : (record_error cfg st now).circuit_breaker_state = .Open) :
    (prune_old_errors now (st.error_count ++ [now])).length ≥ cfg.error_threshold ∨
    st.circuit_breaker_state = .Open := by
  by_cases hge :
      (prune_old_errors now (st.error_count ++ [now])).length ≥ cfg.error_threshold
  · exact Or.inl hge
  · simp [record_error, open_circuit_breaker, hge] at h
    exact Or.inr h

/-- `record_error` either keeps the circuit state or opens it. -/
theorem record_error_circuit_or (cfg : ErrorBoundaryConfig)
    (st : BoundaryState) (now : Nat) :
    (record_error cfg st now).circuit_breaker_state = st.circuit_breaker_state ∨
    (record_error cfg st now).circuit_breaker_state = .Open := by
  by_cases hge :
      (prune_old_errors now (st.error_count ++ [now])).length ≥ cfg.error_threshold <;>
    simp [record_error, open_circuit_breaker, hge]

/-- `attempt_recovery` either keeps the circuit state or opens it
(only `Restart` changes it, through `force_restart`). -/
theorem attempt_recovery_circuit_or (st : BoundaryState) (now : Nat)
    (s : RecoveryStrategy) :
    (attempt_recovery st now s).1.circuit_breaker_state = st.circuit_breaker_state ∨
    (attempt_recovery st now s).1.circuit_breaker_state = .Open := by
  cases s <;> simp [attempt_recovery, force_restart, open_circuit_breaker]

/-- `attempt_recovery` either keeps the last-error timestamp or stamps it
with the current instant. -/
theorem attempt_recovery_last_error_or (st : BoundaryState) (now : Nat)
    (s : RecoveryStrategy) :
    (attempt_recovery st now s).1.last_error = st.last_error ∨
    (attempt_recovery st now s).1.last_error = some now := by
  cases s <;> simp [attempt_recovery, force_restart, open_circuit_breaker]

/-- After `on_error`, the last-error timestamp is always the current
instant: `record_error` stamps it and no later step clears it. -/
theorem on_error_last_error (cfg : ErrorBoundaryConfig) (name : String)
    (st : BoundaryState) (now : Nat) (s : String) :
    (on_error cfg name st now s).state.last_error = some now := by
  by_cases hen : cfg.enable_automatic_recovery = true
  · by_cases hmax :
        (record_error cfg st now).recovery_attempts ≥ cfg.max_recovery_attempts
    · simp [on_error, hen, hmax, open_circuit_breaker]
    · rcases hs : determine_recovery_strategy s with _ | strat
      · simp [on_error, hen, hmax, hs, record_error_last_error]
      · simp only [on_error, hen, hmax, hs]
        have h := attempt_recovery_last_error_or
          { record_error cfg st now with
            recovery_attempts := (record_error cfg st now).recovery_attempts + 1 }
          now strat
        rcases h with h | h <;>
          simp_all [record_error_last_error]
  · simp [on_error, hen, record_error_last_error]

/-- `on_error` either keeps the circuit state it was given or opens it;
it never closes the breaker. -/
theorem on_error_circuit_or (cfg : ErrorBoundaryConfig) (name : String)
    (st : BoundaryState) (now : Nat) (s : String) :
    (on_error cfg name st now s).state.circuit_breaker_state =
      st.circuit_breaker_state ∨
    (on_error cfg name st now s).state.circuit_breaker_state = .Open := by
  by_cases hen : cfg.enable_automatic_recovery = true
  · by_cases hmax :
        (record_error cfg st now).recovery_attempts ≥ cfg.max_recovery_attempts
    · simp [on_error, hen, hmax, open_circuit_breaker]
    · rcases hs : determine_recovery_strategy s with _ | strat
      · simp only [on_error, hen, hmax, hs]
        simpa using record_error_circuit_or cfg st now
      · have h := attempt_recovery_circuit_or
          { record_error cfg st now with
            recovery_attempts := (record_error cfg st now).recovery_attempts + 1 }
          now strat
        simp [on_error, hen, hmax, hs]
        rcases h with h | h
        · rw [h]
          simpa using record_error_circuit_or cfg st now
        · exact Or.inr h
  · simp [on_error, hen]
    simpa using record_error_circuit_or cfg st now

/-! ## Claim theorems -/

/-- Claim C2: while the circuit is `Open` and the last-error timestamp is
not yet past `circuit_breaker_timeout`, `execute` fails fast: it returns
the synthesized `AppError::Internal` circuit-breaker message for the
component (not any error of the operation), never invokes the wrapped
operation, and leaves the boundary state untouched. -/
theorem circuit_open_fails_fast {ε α : Type} (cfg : ErrorBoundaryConfig)
    (name : String) (fromApp : AppError → ε) (display : ε → String)
    (st : BoundaryState) (now t : Nat) (op : Except ε α)
    (hopen : st.circuit_breaker_state = .Open) (hlast : st.last_error = some t)
    (hto : ¬ now - t > cfg.circuit_breaker_timeout) :
    (execute cfg name fromApp display st now op).result =
      .error (fromApp (.Internal
        ("Circuit breaker is open for component: " ++ name))) ∧
    (execute cfg name fromApp display st now op).invoked = false ∧
    (execute cfg name fromApp display st now op).state = st := by
  obtain ⟨cbs, ec, le, ra⟩ := st
  simp only at hopen hlast
  subst hopen; subst hlast
  simp [execute, hto]

/-- Concrete instance of `circuit_open_fails_fast`: an `Open` boundary
5 ms after its last error rejects an operation that would have succeeded. -/
theorem circuit_open_fails_fast_witness :
    (execute .default "audio" (α := Unit) id AppError.display
        ⟨.Open, [0, 1], some 5, 1⟩ 100 (.ok ())).result =
      .error (.Internal ("Circuit breaker is open for component: " ++ "audio")) ∧
    (execute .default "audio" (α := Unit) id AppError.display
        ⟨.Open, [0, 1], some 5, 1⟩ 100 (.ok ())).invoked = false ∧
    (execute .default "audio" (α := Unit) id AppError.display
        ⟨.Open, [0, 1], some 5, 1⟩ 100 (.ok ())).state = ⟨.Open, [0, 1], some 5, 1⟩ :=
  circuit_open_fails_fast .default "audio" id AppError.display
    ⟨.Open, [0, 1], some 5, 1⟩ 100 5 (.ok ()) rfl rfl (by decide)

/-- Claim C6: whenever `execute` actually invokes the wrapped operation and
it returns `Ok(v)`, the call returns `Ok(v)` unchanged and leaves the
all-clear state — empty failure window, zero recovery attempts, cleared
last-error timestamp and a `Closed` circuit — whatever the prior state. -/
theorem execute_ok_resets {ε α : Type} (cfg : ErrorBoundaryConfig)
    (name : String) (fromApp : AppError → ε) (display : ε → String)
    (st : BoundaryState) (now : Nat) (v : α)
    (hinv : (execute cfg name fromApp display st now (.ok v)).invoked = true) :
    (execute cfg name fromApp display st now (.ok v)).result = .ok v ∧
    (execute cfg name fromApp display st now (.ok v)).state =
      { circuit_breaker_state := .Closed, error_count := []
        last_error := none, recovery_attempts := 0 } := by
  obtain ⟨cbs, ec, le, ra⟩ := st
  cases cbs
  · simp [execute, execute_run, on_success_eq]
  · cases le with
    | none => simp [execute, execute_run, on_success_eq]
    | some t =>
      by_cases hto : now - t > cfg.circuit_breaker_timeout
      · simp [execute, execute_run, hto, on_success_eq]
      · simp [execute, hto] at hinv
  · simp [execute, execute_run, on_success_eq]

/-- Concrete instance of `execute_ok_resets`: a half-open boundary with
stale bookkeeping is fully reset by one successful call. -/
theorem execute_ok_resets_witness :
    (execute .default "w6" (ε := AppError) id AppError.display
        ⟨.HalfOpen, [3], some 3, 2⟩ 10 (.ok 42)).result = .ok 42 ∧
    (execute .default "w6" (ε := AppError) id AppError.display
        ⟨.HalfOpen, [3], some 3, 2⟩ 10 (.ok 42)).state =
      { circuit_breaker_state := .Closed, error_count := []
        last_error := none, recovery_attempts := 0 } :=
  execute_ok_resets .default "w6" id AppError.display
    ⟨.HalfOpen, [3], some 3, 2⟩ 10 42 (by decide)

/-- Claim C7: whenever `execute` actually invokes the wrapped operation and
it returns `Err(e)`, the call returns exactly that error `e` — the error is
neither swallowed nor replaced on any error path of `on_error`. -/
theorem execute_err_propagates {ε α : Type} (cfg : ErrorBoundaryConfig)
    (name : String) (fromApp : AppError → ε) (display : ε → String)
    (st : BoundaryState) (now : Nat) (e : ε)
    (hinv : (execute cfg name fromApp display st now
      (Except.error (α := α) e)).invoked = true) :
    (execute cfg name fromApp display st now (Except.error (α := α) e)).result =
      .error e := by
  obtain ⟨cbs, ec, le, ra⟩ := st
  cases cbs
  · simp [execute, execute_run]
  · cases le with
    | none => simp [execute, execute_run]
    | some t =>
      by_cases hto : now - t > cfg.circuit_breaker_timeout
      · simp [execute, execute_run, hto]
      · simp [execute, hto] at hinv
  · simp [execute, execute_run]

/-- Concrete instance of `execute_err_propagates`: a failing operation's
own error comes back unchanged after recovery bookkeeping. -/
theorem execute_err_propagates_witness :
    (execute .default "w7" (α := Unit) id AppError.display .init 0
      (.error (AppError.Internal "disk full"))).result =
    .error (AppError.Internal "disk full") :=
  execute_err_propagates .default "w7" id AppError.display .init 0
    (AppError.Internal "disk full") (by decide)

/-- Claim C9: a `cleanup` call while the cleanup-running flag is already
set returns immediately as a complete no-op — the whole manager (both
resource maps, the last-cleanup timestamp, the memory estimate and every
resource's buffers) is returned unchanged. -/
theorem cleanup_already_running_noop (m : ResourceManager) (now : Nat)
    (h : m.cleanup_running = true) : m.cleanup now = m := by
  simp [ResourceManager.cleanup, h]

/-- Concrete instance of `cleanup_already_running_noop`: a manager holding
a live engine with a non-empty buffer pool is untouched. -/
theorem cleanup_already_running_noop_witness :
    (ResourceManager.mk [("a", ⟨"a", 0, 4, [[1.0]], true, 64⟩)] [] 30 0 64
        true).cleanup 500 =
    ResourceManager.mk [("a", ⟨"a", 0, 4, [[1.0]], true, 64⟩)] [] 30 0 64 true :=
  cleanup_already_running_noop _ 500 rfl

/-- Claim C4: recovery-strategy classification is a deterministic,
case-insensitive (messages equal up to lowercasing classify identically),
first-match keyword scan: memory/allocation → `Restart`; otherwise
timeout → `Retry{3, 2000, exponential}`; otherwise network/connection →
`Fallback("cache")`; otherwise validation → `Skip`; any other message →
`Retry{1, 1000, no backoff}`. -/
theorem recovery_strategy_classification (s u : String)
    (hcase : str_to_lower s = str_to_lower u) :
    determine_recovery_strategy s = determine_recovery_strategy u ∧
    ((str_contains (str_to_lower s) "memory" = true ∨
      str_contains (str_to_lower s) "allocation" = true) →
      determine_recovery_strategy s = some .Restart) ∧
    (str_contains (str_to_lower s) "memory" = false →
     str_contains (str_to_lower s) "allocation" = false →
     str_contains (str_to_lower s) "timeout" = true →
      determine_recovery_strategy s = some (.Retry 3 2000 true)) ∧
    (str_contains (str_to_lower s) "memory" = false →
     str_contains (str_to_lower s) "allocation" = false →
     str_contains (str_to_lower s) "timeout" = false →
     (str_contains (str_to_lower s) "network" = true ∨
      str_contains (str_to_lower s) "connection" = true) →
      determine_recovery_strategy s = some (.Fallback "cache")) ∧
    (str_contains (str_to_lower s) "memory" = false →
     str_contains (str_to_lower s) "allocation" = false →
     str_contains (str_to_lower s) "timeout" = false →
     str_contains (str_to_lower s) "network" = false →
     str_contains (str_to_lower s) "connection" = false →
     str_contains (str_to_lower s) "validation" = true →
      determine_recovery_strategy s = some .Skip) ∧
    (str_contains (str_to_lower s) "memory" = false →
     str_contains (str_to_lower s) "allocation" = false →
     str_contains (str_to_lower s) "timeout" = false →
     str_contains (str_to_lower s) "network" = false →
     str_contains (str_to_lower s) "connection" = false →
     str_contains (str_to_lower s) "validation" = false →
      determine_recovery_strategy s = some (.Retry 1 1000 false)) := by
  refine ⟨by simp only [determine_recovery_strategy, hcase], ?_, ?_, ?_, ?_, ?_⟩
  · rintro (h | h) <;> simp [determine_recovery_strategy, h]
  · intro h1 h2 h3
    simp [determine_recovery_strategy, h1, h2, h3]
  · rintro h1 h2 h3 (h | h) <;>
      simp [determine_recovery_strategy, h1, h2, h3, h]
  · intro h1 h2 h3 h4 h5 h6
    simp [determine_recovery_strategy, h1, h2, h3, h4, h5, h6]
  · intro h1 h2 h3 h4 h5 h6
    simp [determine_recovery_strategy, h1, h2, h3, h4, h5, h6]

/-- Concrete instance of `recovery_strategy_classification`: mixed-case
input classifies like its lowercase form, and "timeout" wins over
"connection" in the first-match order. -/
theorem recovery_strategy_classification_witness :
    determine_recovery_strategy "Connection TIMEOUT" =
      determine_recovery_strategy "connection timeout" ∧
    determine_recovery_strategy "Connection TIMEOUT" =
      some (.Retry 3 2000 true) :=
  ⟨(recovery_strategy_classification "Connection TIMEOUT" "connection timeout"
      (by decide)).1,
   (recovery_strategy_classification "Connection TIMEOUT" "connection timeout"
      (by decide)).2.2.1 (by decide) (by decide) (by decide)⟩

/-- Claim C8: a `Retry` recovery with exponential backoff sleeps
`delay_ms * 2 ^ (attempt - 1)` for the boundary's current recovery-attempt
counter (exact whenever the `u64` arithmetic does not saturate or wrap);
and a default-config boundary fed one failure displaying
"connection refused" takes the fixed 500 ms `Fallback` sleep and ends with
the attempt counter at 1. -/
theorem retry_exponential_backoff_delay (d a : Nat) (h1 : 1 ≤ a) (h2 : a ≤ 64)
    (h3 : d * 2 ^ (a - 1) < 2 ^ 64) :
    retry_backoff_delay d a = d * 2 ^ (a - 1) ∧
    (execute .default "voice" (α := Unit) id AppError.display .init 0
      (.error (AppError.Internal "connection refused"))).sleeps = [500] ∧
    (execute .default "voice" (α := Unit) id AppError.display .init 0
      (.error (AppError.Internal "connection refused"))).state.recovery_attempts
      = 1 := by
  refine ⟨?_, by decide, by decide⟩
  unfold retry_backoff_delay u64_saturating_pow2 u32_wrap
  have h32 : (2 : Nat) ^ 32 = 4294967296 := by norm_num
  have ha : a % 2 ^ 32 = a := Nat.mod_eq_of_lt (by rw [h32]; omega)
  rw [ha]
  have hb : (a + 2 ^ 32 - 1) % 2 ^ 32 = a - 1 := by
    have hsplit : a + 2 ^ 32 - 1 = (a - 1) + 1 * 2 ^ 32 := by rw [h32]; omega
    rw [hsplit, Nat.add_mul_mod_self_right]
    exact Nat.mod_eq_of_lt (by rw [h32]; omega)
  rw [hb]
  have hc : 2 ^ (a - 1) ≤ 2 ^ 64 - 1 := by
    calc 2 ^ (a - 1) ≤ 2 ^ 63 := Nat.pow_le_pow_right (by norm_num) (by omega)
    _ ≤ 2 ^ 64 - 1 := by norm_num
  rw [min_eq_left hc]
  exact Nat.mod_eq_of_lt h3

/-- Concrete instance of `retry_exponential_backoff_delay`: the third
attempt of the timeout strategy sleeps 2000 · 2² = 8000 ms, and the
scenario-B facts. -/
theorem retry_exponential_backoff_delay_witness :
    retry_backoff_delay 2000 3 = 2000 * 2 ^ (3 - 1) ∧
    (execute .default "voice" (α := Unit) id AppError.display .init 0
      (.error (AppError.Internal "connection refused"))).sleeps = [500] ∧
    (execute .default "voice" (α := Unit) id AppError.display .init 0
      (.error (AppError.Internal "connection refused"))).state.recovery_attempts
      = 1 :=
  retry_exponential_backoff_delay 2000 3 (by decide) (by decide) (by norm_num)

/-- Boundary states reachable through the public API: the state of `new`,
any `execute` step (over any error/value types, operation outcome and
instant), and `reset`. -/
inductive Reachable (cfg : ErrorBoundaryConfig) (name : String) :
    BoundaryState → Prop
  | init : Reachable cfg name .init
  | exec {ε α : Type} (fromApp : AppError → ε) (display : ε → String)
      (now : Nat) (op : Except ε α) {prev : BoundaryState} :
      Reachable cfg name prev →
      Reachable cfg name (execute cfg name fromApp display prev now op).state
  | reset {prev : BoundaryState} :
      Reachable cfg name prev → Reachable cfg name prev.reset

/-- Claim C10: in every state reachable through the public API, an `Open`
circuit has a last-error timestamp (`open_circuit_breaker` always stamps
one), so the `Open` branch of `execute` never meets a missing timestamp —
the case in which it would silently run the wrapped operation. -/
theorem open_circuit_has_timestamp (cfg : ErrorBoundaryConfig) (name : String)
    (st : BoundaryState) (h : Reachable cfg name st) :
    st.circuit_breaker_state = .Open → st.last_error.isSome = true := by
  induction h with
  | init => intro hopen; simp [BoundaryState.init] at hopen
  | @exec ε α fromApp display now op prev hprev ih =>
    intro hopen
    obtain ⟨cbs, ec, le, ra⟩ := prev
    cases cbs
    · cases op with
      | ok v => simp [execute, execute_run, on_success_eq] at hopen
      | error e => simp [execute, execute_run, on_error_last_error]
    · cases le with
      | none =>
        cases op with
        | ok v => simp [execute, execute_run, on_success_eq] at hopen
        | error e => simp [execute, execute_run, on_error_last_error]
      | some t =>
        by_cases hto : now - t > cfg.circuit_breaker_timeout
        · cases op with
          | ok v => simp [execute, execute_run, hto, on_success_eq] at hopen
          | error e => simp [execute, execute_run, hto, on_error_last_error]
        · simp [execute, hto]
    · cases op with
      | ok v => simp [execute, execute_run, on_success_eq] at hopen
      | error e => simp [execute, execute_run, on_error_last_error]
  | @reset prev hprev ih => intro hopen; simp [BoundaryState.reset] at hopen

/-- Configuration used to reach an `Open` state concretely: threshold 1,
automatic recovery disabled. -/
def reach_witness_cfg : ErrorBoundaryConfig :=
  { max_recovery_attempts := 3, default_recovery_delay := 1000
    enable_automatic_recovery := false, error_threshold := 1
    circuit_breaker_timeout := 60000 }

/-- Concrete instance of `open_circuit_has_timestamp`: the `Open` state
reached after one failure under `reach_witness_cfg` carries a timestamp. -/
theorem open_circuit_has_timestamp_witness :
    (BoundaryState.mk .Open [0] (some 0) 0).last_error.isSome = true := by
  have h0 := Reachable.exec (α := Unit) (ε := AppError) id AppError.display 0
    (.error (AppError.Internal "x"))
    (Reachable.init : Reachable reach_witness_cfg "w10" .init)
  have he : (execute reach_witness_cfg "w10" (α := Unit) id AppError.display
      .init 0 (.error (AppError.Internal "x"))).state =
      BoundaryState.mk .Open [0] (some 0) 0 := by decide
  rw [he] at h0
  exact open_circuit_has_timestamp reach_witness_cfg "w10" _ h0 rfl

/-- Counterexample to claim C1 as stated: a default-config boundary, `Open`
with its last error 60 001 ms ago (strictly past the 60 000 ms timeout),
runs the trial — but when the trial returns `Err`, the call leaves the
circuit `HalfOpen`, not `Closed`. -/
theorem open_timeout_trial_err_counterexample :
    ((60001 : Nat) - 0 > ErrorBoundaryConfig.default.circuit_breaker_timeout) ∧
    (execute .default "c" (α := Unit) id AppError.display
      ⟨.Open, [], some 0, 2⟩ 60001 (.error (AppError.Internal "x"))).invoked
      = true ∧
    (execute .default "c" (α := Unit) id AppError.display
      ⟨.Open, [], some 0, 2⟩ 60001
      (.error (AppError.Internal "x"))).state.circuit_breaker_state
      = .HalfOpen ∧
    (execute .default "c" (α := Unit) id AppError.display
      ⟨.Open, [], some 0, 2⟩ 60001
      (.error (AppError.Internal "x"))).state.circuit_breaker_state
      ≠ .Closed := by decide

/-- Claim C1 (amended): once strictly more than `circuit_breaker_timeout`
has elapsed since the last `Open` timestamp, the next `execute` call moves
the circuit to `HalfOpen` and invokes the wrapped operation as a single
trial; the circuit ends `Closed` when the trial returns `Ok`, while an
`Err` trial never leaves it `Closed` (it stays `HalfOpen` or re-opens).
The `HalfOpen → Closed` reset happens on the call that starts in
`HalfOpen`. -/
theorem open_timeout_half_open_trial {ε α : Type} (cfg : ErrorBoundaryConfig)
    (name : String) (fromApp : AppError → ε) (display : ε → String)
    (st : BoundaryState) (now t : Nat)
    (hopen : st.circuit_breaker_state = .Open) (hlast : st.last_error = some t)
    (hto : now - t > cfg.circuit_breaker_timeout) :
    (∀ op : Except ε α,
      (execute cfg name fromApp display st now op).invoked = true) ∧
    (∀ v : α, (execute cfg name fromApp display st now (.ok v)).result = .ok v ∧
      (execute cfg name fromApp display st now
        (.ok v)).state.circuit_breaker_state = .Closed) ∧
    (∀ e : ε, (execute cfg name fromApp display st now
      (Except.error (α := α) e)).state.circuit_breaker_state ≠ .Closed) := by
  obtain ⟨cbs, ec, le, ra⟩ := st
  simp only at hopen hlast
  subst hopen; subst hlast
  refine ⟨?_, ?_, ?_⟩
  · intro op; cases op <;> simp [execute, execute_run, hto]
  · intro v; simp [execute, execute_run, hto, on_success_eq]
  · intro e
    have h := on_error_circuit_or cfg name
      ⟨.HalfOpen, ec, some t, ra⟩ now (display e)
    simp [execute, execute_run, hto]
    rcases h with h | h <;> rw [h] <;> simp

/-- Concrete instance of `open_timeout_half_open_trial`: a successful trial
just past the timeout closes the breaker and returns its value. -/
theorem open_timeout_half_open_trial_witness :
    (execute .default "w1" (ε := AppError) id AppError.display
      ⟨.Open, [], some 0, 1⟩ 60001 (.ok ())).result = .ok () ∧
    (execute .default "w1" (ε := AppError) id AppError.display
      ⟨.Open, [], some 0, 1⟩ 60001
      (.ok ())).state.circuit_breaker_state = .Closed :=
  (open_timeout_half_open_trial .default "w1" id AppError.display
    ⟨.Open, [], some 0, 1⟩ 60001 0 rfl rfl (by decide)).2.1 ()

/-- If `on_error` turns a `Closed` circuit `Open`, then the pruned window
reached the threshold, or the attempt counter was exhausted, or the error
classified as the `Restart` strategy (whose `force_restart` opens the
breaker). -/
theorem on_error_closed_to_open (cfg : ErrorBoundaryConfig) (name : String)
    (st : BoundaryState) (now : Nat) (s : String)
    (hc : st.circuit_breaker_state = .Closed)
    (ho : (on_error cfg name st now s).state.circuit_breaker_state = .Open) :
    (prune_old_errors now (st.error_count ++ [now])).length ≥ cfg.error_threshold ∨
    st.recovery_attempts ≥ cfg.max_recovery_attempts ∨
    determine_recovery_strategy s = some .Restart := by
  by_cases hen : cfg.enable_automatic_recovery = true
  · by_cases hmax : (record_error cfg st now).recovery_attempts
        ≥ cfg.max_recovery_attempts
    · rw [record_error_recovery_attempts] at hmax
      exact Or.inr (Or.inl hmax)
    · rcases hs : determine_recovery_strategy s with _ | strat
      · simp [on_error, hen, hmax, hs] at ho
        exact Or.inl ((record_error_circuit_open cfg st now ho).resolve_right
          (by simp [hc]))
      · cases strat with
        | Restart => exact Or.inr (Or.inr rfl)
        | Retry n d b =>
          simp [on_error, hen, hmax, hs, attempt_recovery] at ho
          exact Or.inl ((record_error_circuit_open cfg st now ho).resolve_right
            (by simp [hc]))
        | Fallback f =>
          simp [on_error, hen, hmax, hs, attempt_recovery] at ho
          exact Or.inl ((record_error_circuit_open cfg st now ho).resolve_right
            (by simp [hc]))
        | Skip =>
          simp [on_error, hen, hmax, hs, attempt_recovery] at ho
          exact Or.inl ((record_error_circuit_open cfg st now ho).resolve_right
            (by simp [hc]))
        | Custom c =>
          simp [on_error, hen, hmax, hs, attempt_recovery] at ho
          exact Or.inl ((record_error_circuit_open cfg st now ho).resolve_right
            (by simp [hc]))
  · simp [on_error, hen] at ho
    exact Or.inl ((record_error_circuit_open cfg st now ho).resolve_right
      (by simp [hc]))

/-- Counterexample to claim C5 as stated: under the default configuration a
single failure mentioning "memory" takes the circuit `Closed → Open`
although the 60-second window stays strictly below `error_threshold` and
the recovery-attempt counter never reached `max_recovery_attempts` — a
third transition cause (the `Restart` strategy) exists. -/
theorem closed_to_open_restart_counterexample :
    BoundaryState.init.circuit_breaker_state = .Closed ∧
    (execute .default "c" (α := Unit) id AppError.display .init 0
      (.error (AppError.Internal "memory exhausted"))).state.circuit_breaker_state
      = .Open ∧
    (prune_old_errors 0 (BoundaryState.init.error_count ++ [0])).length <
      ErrorBoundaryConfig.default.error_threshold ∧
    BoundaryState.init.recovery_attempts <
      ErrorBoundaryConfig.default.max_recovery_attempts := by decide

/-- Scenario-A configuration: `error_threshold = 2`,
`max_recovery_attempts = 5`, other fields at their defaults. -/
def scenario_a_cfg : ErrorBoundaryConfig :=
  { max_recovery_attempts := 5, default_recovery_delay := 1000
    enable_automatic_recovery := true, error_threshold := 2
    circuit_breaker_timeout := 60000 }

/-- Scenario A: the boundary state after one failing operation at t = 0 ms. -/
def scenario_a_after_one_failure : BoundaryState :=
  (execute scenario_a_cfg "A" (α := Unit) id AppError.display .init 0
    (.error (AppError.Internal "boom"))).state

/-- Scenario A: the boundary state after a second failure at t = 500 ms. -/
def scenario_a_after_two_failures : BoundaryState :=
  (execute scenario_a_cfg "A" (α := Unit) id AppError.display
    scenario_a_after_one_failure 500 (.error (AppError.Internal "boom"))).state

/-- Claim C5 (amended): an `execute` call on a `Closed` boundary opens the
circuit only in three situations — the pruned 60-second window reaches
`error_threshold`, the recovery-attempt counter had already reached
`max_recovery_attempts`, or the message classifies as the `Restart`
strategy (memory/allocation), whose `force_restart` opens the breaker.
In particular (scenario A): with `error_threshold = 2` and
`max_recovery_attempts = 5`, two failures within one second leave the
circuit `Open` and the next call fails fast without invoking its
operation. -/
theorem closed_to_open_triggers {ε α : Type} (cfg : ErrorBoundaryConfig)
    (name : String) (fromApp : AppError → ε) (display : ε → String)
    (st : BoundaryState) (now : Nat) (e : ε)
    (hc : st.circuit_breaker_state = .Closed)
    (ho : (execute cfg name fromApp display st now
      (Except.error (α := α) e)).state.circuit_breaker_state = .Open) :
    ((prune_old_errors now (st.error_count ++ [now])).length
        ≥ cfg.error_threshold ∨
     st.recovery_attempts ≥ cfg.max_recovery_attempts ∨
     determine_recovery_strategy (display e) = some .Restart) ∧
    scenario_a_after_two_failures.circuit_breaker_state = .Open ∧
    (execute scenario_a_cfg "A" (α := Unit) id AppError.display
      scenario_a_after_two_failures 1000
      (.error (AppError.Internal "boom"))).invoked = false ∧
    (execute scenario_a_cfg "A" (α := Unit) id AppError.display
      scenario_a_after_two_failures 1000
      (.error (AppError.Internal "boom"))).result =
      .error (AppError.Internal
        ("Circuit breaker is open for component: " ++ "A")) := by
  refine ⟨?_, by decide, by decide, by decide⟩
  apply on_error_closed_to_open cfg name st now (display e) hc
  obtain ⟨cbs, ec, le, ra⟩ := st
  simp only at hc
  subst hc
  simpa [execute, execute_run] using ho

/-- Concrete instance of `closed_to_open_triggers` at the second failure of
scenario A: the window-threshold trigger fires. -/
theorem closed_to_open_triggers_witness :
    ((prune_old_errors 500 (scenario_a_after_one_failure.error_count ++ [500])).length
        ≥ scenario_a_cfg.error_threshold ∨
     scenario_a_after_one_failure.recovery_attempts
        ≥ scenario_a_cfg.max_recovery_attempts ∨
     determine_recovery_strategy (AppError.display (.Internal "boom"))
        = some .Restart) ∧
    scenario_a_after_two_failures.circuit_breaker_state = .Open ∧
    (execute scenario_a_cfg "A" (α := Unit) id AppError.display
      scenario_a_after_two_failures 1000
      (.error (AppError.Internal "boom"))).invoked = false ∧
    (execute scenario_a_cfg "A" (α := Unit) id AppError.display
      scenario_a_after_two_failures 1000
      (.error (AppError.Internal "boom"))).result =
      .error (AppError.Internal
        ("Circuit breaker is open for component: " ++ "A")) :=
  closed_to_open_triggers (α := Unit) scenario_a_cfg "A" id AppError.display
    scenario_a_after_one_failure 500 (AppError.Internal "boom")
    (by decide) (by decide)

/-- Lookup commutes with mapping a function over the values. -/
theorem alist_find_map {α β : Type} (k : String) (f : α → β)
    (l : List (String × α)) :
    alist_find k (l.map (fun p => (p.1, f p.2))) = (alist_find k l).map f := by
  induction l with
  | nil => rfl
  | cons p rest ih =>
    obtain ⟨q, v⟩ := p
    by_cases h : q = k <;> simp [alist_find, h, ih]

/-- A key absent from the key list is not found. -/
theorem alist_find_none_of_not_mem {α : Type} (k : String)
    (l : List (String × α)) (h : k ∉ l.map Prod.fst) : alist_find k l = none := by
  induction l with
  | nil => rfl
  | cons p rest ih =>
    obtain ⟨q, v⟩ := p
    simp only [List.map_cons, List.mem_cons, not_or] at h
    simp only [alist_find, if_neg (fun he : q = k => h.1 he.symm)]
    exact ih h.2

/-- An entry whose value passes the filter is still found, unchanged. -/
theorem alist_find_filter_of_keep {α : Type} (k : String)
    (keep : String × α → Bool) (l : List (String × α)) (r : α)
    (hf : alist_find k l = some r) (hk : keep (k, r) = true) :
    alist_find k (l.filter keep) = some r := by
  induction l with
  | nil => simp [alist_find] at hf
  | cons p rest ih =>
    obtain ⟨q, v⟩ := p
    by_cases h : q = k
    · subst h
      simp only [alist_find, if_pos rfl] at hf
      obtain rfl : v = r := Option.some.inj hf
      rw [List.filter_cons, if_pos hk]
      simp [alist_find]
    · simp only [alist_find, if_neg h] at hf
      rw [List.filter_cons]
      by_cases hkeep : keep (q, v) = true
      · rw [if_pos hkeep]
        simp only [alist_find, if_neg h]
        exact ih hf
      · rw [if_neg hkeep]
        exact ih hf

/-- With unique keys, an entry whose value fails the filter disappears. -/
theorem alist_find_filter_of_drop {α : Type} (k : String)
    (keep : String × α → Bool) (l : List (String × α))
    (hnd : (l.map Prod.fst).Nodup) (r : α)
    (hf : alist_find k l = some r) (hk : keep (k, r) = false) :
    alist_find k (l.filter keep) = none := by
  induction l with
  | nil => simp [alist_find] at hf
  | cons p rest ih =>
    obtain ⟨q, v⟩ := p
    rw [List.map_cons, List.nodup_cons] at hnd
    by_cases h : q = k
    · subst h
      simp only [alist_find, if_pos rfl] at hf
      obtain rfl : v = r := Option.some.inj hf
      rw [List.filter_cons, if_neg (by simp [hk])]
      apply alist_find_none_of_not_mem
      intro hmem
      apply hnd.1
      simp only [List.mem_map] at hmem ⊢
      obtain ⟨a, ha, hfst⟩ := hmem
      exact ⟨a, List.mem_of_mem_filter ha, hfst⟩
    · simp only [alist_find, if_neg h] at hf
      rw [List.filter_cons]
      by_cases hkeep : keep (q, v) = true
      · rw [if_pos hkeep]
        simp only [alist_find, if_neg h]
        exact ih hnd.2 hf
      · rw [if_neg hkeep]
        exact ih hnd.2 hf

/-- After a non-reentrant `cleanup`, the voice-engine map is the non-stale
entries, with each value passed through `cleanup` and `clear_cache`. -/
theorem cleanup_voice_engines (m : ResourceManager) (now : Nat)
    (h : m.cleanup_running = false) :
    (m.cleanup now).voice_engines =
      ((m.voice_engines.filter
          (fun p : String × VoiceEngineResource => ¬ p.2.is_stale now)).map
        (fun p : String × VoiceEngineResource => (p.1, p.2.cleanup_resource))).map
        (fun p : String × VoiceEngineResource => (p.1, p.2.clear_cache)) := by
  simp [ResourceManager.cleanup, h, ResourceManager.force_cleanup,
    ResourceManager.update_memory_estimate]

/-- After a non-reentrant `cleanup` call, the text-processor map is the
non-stale entries, with each value cleaned and cache-cleared. -/
theorem cleanup_text_processors (m : ResourceManager) (now : Nat)
    (h : m.cleanup_running = false) :
    (m.cleanup now).text_processors =
      ((m.text_processors.filter
          (fun p : String × TextProcessorResource => ¬ p.2.is_stale now)).map
        (fun p : String × TextProcessorResource => (p.1, p.2.cleanup_resource))).map
        (fun p : String × TextProcessorResource => (p.1, p.2.clear_cache)) := by
  simp [ResourceManager.cleanup, h, ResourceManager.force_cleanup,
    ResourceManager.update_memory_estimate]

/-- Scenario C engine "a": last active at t = 0, so idle 310 s at t = 310. -/
def scenario_c_engine_a : VoiceEngineResource :=
  { id := "a", last_activity := 0, buffer_size := 4
    audio_pool := [[0.25, 0.5]], initialized := true, memory_usage := 64 }

/-- Scenario C engine "b": last active at t = 300, so idle 10 s at t = 310. -/
def scenario_c_engine_b : VoiceEngineResource :=
  { id := "b", last_activity := 300, buffer_size := 2
    audio_pool := [[1.5]], initialized := true, memory_usage := 32 }

/-- Scenario C text processor "p": idle 5 s at t = 310. -/
def scenario_c_processor_p : TextProcessorResource :=
  { id := "p", last_activity := 305, cache_size := 1
    processing_queue := ["x"], initialized := true, memory_usage := 16 }

/-- Scenario C manager holding engines "a", "b" and processor "p". -/
def scenario_c_manager : ResourceManager :=
  { voice_engines := [("a", scenario_c_engine_a), ("b", scenario_c_engine_b)]
    text_processors := [("p", scenario_c_processor_p)]
    cleanup_interval := 30, last_cleanup := 0, total_memory := 112
    cleanup_running := false }

/-- Counterexample to claim C3 as stated: after `cleanup()` at t = 310 the
retained, non-stale engine "b" is still registered, but its audio buffers
are empty — `cleanup()` itself invokes `force_cleanup`, which clears every
retained resource's buffers, so they are not intact when `cleanup()`
returns. -/
theorem cleanup_clears_retained_buffers_counterexample :
    scenario_c_engine_b.is_stale 310 = false ∧
    (alist_find "b" scenario_c_manager.voice_engines).map
      (fun r => r.audio_pool.isEmpty) = some false ∧
    (alist_find "b" (scenario_c_manager.cleanup 310).voice_engines).map
      (fun r => r.audio_pool.isEmpty) = some true ∧
    (alist_find "a" (scenario_c_manager.cleanup 310).voice_engines).isNone
      = true := by decide

/-- Claim C3 (amended): `cleanup()` prunes exactly the resources idle
strictly more than 300 s (a resource idle 301 s is pruned, one idle 299 s
is retained) from both maps, and every retained resource stays registered;
however, the `force_cleanup` embedded in `cleanup()` clears each retained
resource's buffers and memory estimate before `cleanup()` returns, so the
retained resource survives with emptied pools rather than intact buffers. -/
theorem cleanup_prunes_stale_and_clears_buffers (m : ResourceManager)
    (now : Nat) (hrun : m.cleanup_running = false)
    (hndv : (m.voice_engines.map Prod.fst).Nodup)
    (hndt : (m.text_processors.map Prod.fst).Nodup)
    (k : String) (r : VoiceEngineResource)
    (hk : alist_find k m.voice_engines = some r)
    (q : String) (w : TextProcessorResource)
    (hq : alist_find q m.text_processors = some w) :
    (r.is_stale now = true ↔ 300 < now - r.last_activity) ∧
    (r.is_stale now = true →
      alist_find k (m.cleanup now).voice_engines = none) ∧
    (r.is_stale now = false →
      alist_find k (m.cleanup now).voice_engines =
        some (r.cleanup_resource.clear_cache)) ∧
    (w.is_stale now = true →
      alist_find q (m.cleanup now).text_processors = none) ∧
    (w.is_stale now = false →
      alist_find q (m.cleanup now).text_processors =
        some (w.cleanup_resource.clear_cache)) := by
  refine ⟨by simp [VoiceEngineResource.is_stale], ?_, ?_, ?_, ?_⟩
  · intro hstale
    rw [cleanup_voice_engines m now hrun, alist_find_map, alist_find_map,
      alist_find_filter_of_drop k _ _ hndv r hk (by simp [hstale])]
    rfl
  · intro hstale
    rw [cleanup_voice_engines m now hrun, alist_find_map, alist_find_map,
      alist_find_filter_of_keep k _ _ r hk (by simp [hstale])]
    rfl
  · intro hstale
    rw [cleanup_text_processors m now hrun, alist_find_map, alist_find_map,
      alist_find_filter_of_drop q _ _ hndt w hq (by simp [hstale])]
    rfl
  · intro hstale
    rw [cleanup_text_processors m now hrun, alist_find_map, alist_find_map,
      alist_find_filter_of_keep q _ _ w hq (by simp [hstale])]
    rfl

/-- Concrete instance of `cleanup_prunes_stale_and_clears_buffers` on
scenario C: "a" (idle 310 s) is pruned, "b" (idle 10 s) and "p" (idle 5 s)
stay registered with cleaned, cache-cleared contents. -/
theorem cleanup_prunes_stale_witness :
    (scenario_c_engine_a.is_stale 310 = true ↔
      300 < 310 - scenario_c_engine_a.last_activity) ∧
    alist_find "a" (scenario_c_manager.cleanup 310).voice_engines = none ∧
    alist_find "b" (scenario_c_manager.cleanup 310).voice_engines =
      some (scenario_c_engine_b.cleanup_resource.clear_cache) ∧
    alist_find "p" (scenario_c_manager.cleanup 310).text_processors =
      some (scenario_c_processor_p.cleanup_resource.clear_cache) := by
  have ha := cleanup_prunes_stale_and_clears_buffers scenario_c_manager 310 rfl
    (by decide) (by decide) "a" scenario_c_engine_a rfl
    "p" scenario_c_processor_p rfl
  have hb := cleanup_prunes_stale_and_clears_buffers scenario_c_manager 310 rfl
    (by decide) (by decide) "b" scenario_c_engine_b rfl
    "p" scenario_c_processor_p rfl
  exact ⟨ha.1, ha.2.1 rfl, hb.2.2.1 rfl, hb.2.2.2.2 rfl⟩

end VoiceFlow
